import Mathlib

/-!
# Verification of the assertion-repair rewrite pipeline

This file embeds the seven Python repair scripts of the repository
(`fix_datetime_assertions.py`, `fix_numeric_assertions.py`,
`fix_exception_assertions.py`, `fix_lambda_assertions.py`,
`fix_remaining_assertions.py`, `fix_all_assertion_issues.py`,
`fix_final_issues.py`) as executable Lean functions over lines of a
document, and proves/refutes the specification's claims about them.

Modelling conventions:
* A line is a `List Char`; a document is a `List Line` (the scripts split
  the file content on the newline separator, transform the lines, and
  rejoin them; the split/join is the I/O boundary).  Lines obtained from a
  split on the newline character never contain `'\n'`; the regex wildcard
  `.` (which matches every character except `'\n'`) is modelled as
  "any character other than `'\n'`" inside lazy captures, and a trailing
  greedy `(.*)$` is modelled as "the rest of the line".
* Each `re.sub` with a concrete pattern is modelled by a scanner that at
  every position attempts the pattern (with Python's exact greedy/lazy and
  backtracking behaviour for that specific pattern), emits the replacement
  and continues after the consumed text — Python's leftmost,
  non-overlapping substitution.
* Each `re.match`-driven whole-line rewrite is modelled by a matcher
  returning the captured groups (faithful to the engine's backtracking
  order for that pattern) and a rebuild of the line from the captures.
-/

/-- Characters matched by Python's `\s` class. -/
def isSpaceC (c : Char) : Bool :=
  c == ' ' || c == '\t' || c == '\n' || c == '\r' || c == '\x0b' || c == '\x0c'

/-- Characters matched by Python's `\w` class (ASCII fragment). -/
def isWordC (c : Char) : Bool :=
  c.isAlpha || c.isDigit || c == '_'

/-- A line of the document. -/
abbrev Line := List Char

/-- `pfx p s` : `p` is a prefix of `s`. -/
def pfx : List Char → List Char → Bool
  | [], _ => true
  | _ :: _, [] => false
  | a :: as, b :: bs => a == b && pfx as bs

/-- `occursIn pat s` : the literal `pat` occurs somewhere in `s`
(Python's `pat in s`). -/
def occursIn (pat : List Char) : List Char → Bool
  | [] => pat.isEmpty
  | c :: t => pfx pat (c :: t) || occursIn pat t

/-- The part of `s` strictly before the first occurrence of `pat`
(Python's `s.split(pat)[0]`). -/
def beforeFirst (pat : List Char) : List Char → List Char
  | [] => []
  | c :: t => if pfx pat (c :: t) then [] else c :: beforeFirst pat t

/-- One pass of `re.sub`: at every position try the pattern matcher `f`;
on success `f s = some (repl, k)` the match consumed `k + 1` characters,
`repl` is emitted and scanning resumes after the match (the replacement is
not rescanned); on failure the character is copied.  `fuel` bounds the
recursion and is instantiated with the length of the input. -/
def subScanF (f : List Char → Option (List Char × Nat)) :
    Nat → List Char → List Char
  | 0, s => s
  | _ + 1, [] => []
  | n + 1, c :: t =>
    match f (c :: t) with
    | some (r, k) => r ++ subScanF f n (t.drop k)
    | none => c :: subScanF f n t

/-- `re.sub` over a whole string (see `subScanF`). -/
def subScan (f : List Char → Option (List Char × Nat)) (s : List Char) :
    List Char :=
  subScanF f s.length s

/-- The pattern matcher `f` succeeds at some position of `s`. -/
def hasMatch (f : List Char → Option (List Char × Nat)) : List Char → Bool
  | [] => false
  | c :: t => (f (c :: t)).isSome || hasMatch f t

/-- Matcher for a fixed literal pattern. -/
def tryLit (pat repl : List Char) (s : List Char) : Option (List Char × Nat) :=
  if pfx pat s then some (repl, pat.length - 1) else none

/-- `re.sub` with a fixed literal pattern and replacement. -/
def replaceLit (pat repl : List Char) (s : List Char) : List Char :=
  subScan (tryLit pat repl) s

/-- If the matcher never fires, `subScanF` is the identity. -/
theorem subScanF_of_not_hasMatch (f : List Char → Option (List Char × Nat)) :
    ∀ (n : Nat) (s : List Char), hasMatch f s = false → subScanF f n s = s := by
  intro n
  induction n with
  | zero => intro s _; rfl
  | succ n ih =>
    intro s h
    cases s with
    | nil => rfl
    | cons c t =>
      simp only [hasMatch, Bool.or_eq_false_iff] at h
      obtain ⟨h1, h2⟩ := h
      simp only [subScanF]
      cases hf : f (c :: t) with
      | some v => rw [hf] at h1; simp [Option.isSome] at h1
      | none => rw [ih t h2]

theorem subScan_of_not_hasMatch (f : List Char → Option (List Char × Nat))
    (s : List Char) (h : hasMatch f s = false) : subScan f s = s :=
  subScanF_of_not_hasMatch f s.length s h

/-- If the literal pattern does not occur, `replaceLit` is the identity. -/
theorem replaceLit_of_not_occursIn (pat repl : List Char) (s : List Char)
    (h : occursIn pat s = false) : replaceLit pat repl s = s := by
  apply subScan_of_not_hasMatch
  induction s with
  | nil => rfl
  | cons c t ih =>
    simp only [occursIn, Bool.or_eq_false_iff] at h
    simp only [hasMatch, Bool.or_eq_false_iff]
    refine ⟨?_, ih h.2⟩
    simp only [tryLit, h.1, Bool.false_eq_true, if_false, Option.isSome_none]

/-! ## Comparison matchers

The shape `^(\s*)\((.+?)\s*OP\s*(.+?)CLOSER` (and the unparenthesised
variant used by `fix_remaining_assertions.py`) is matched with the regex
engine's exact strategy: leading whitespace is greedy, the left operand is
lazy (shortest first), the whitespace around the operator is greedy but
deterministic (the operator is not a whitespace character), and the right
operand is lazy — its end is the first occurrence of the closing literal
strictly after its start, with one backtracking corner: if the closing
literal sits immediately after the greedy run of whitespace following the
operator, the engine gives one whitespace character back to the lazy
right operand. -/

/-- Minimal non-empty `(.+?)` capture followed by the literal `closer`:
returns the capture and the text after the closer.  Capture characters
cannot be the newline character. -/
def capLazy (closer : List Char) : List Char → Option (List Char × List Char)
  | [] => none
  | c :: t =>
    if c == '\n' then none
    else if pfx closer t then some ([c], t.drop closer.length)
    else
      match capLazy closer t with
      | some (cap, r) => some (c :: cap, r)
      | none => none

/-- Match `\s*OP\s*(.+?)CLOSER` at the start of `t` (the text after the
left operand), returning the right capture and the text after the closer. -/
def cmpCont (op : Char) (closer : List Char) (t : List Char) :
    Option (List Char × List Char) :=
  let r2 := t.dropWhile isSpaceC
  match r2 with
  | c :: r3 =>
    if c == op then
      let w2 := r3.takeWhile isSpaceC
      let s0 := r3.drop w2.length
      match capLazy closer s0 with
      | some (cap, rest) => some (cap, rest)
      | none =>
        match w2.reverse with
        | wlast :: _ =>
          if wlast != '\n' && pfx closer s0 then
            some ([wlast], s0.drop closer.length)
          else none
        | [] => none
    else none
  | [] => none

/-- Match `(.+?)\s*OP\s*(.+?)CLOSER` at the start of a line fragment:
lazy left operand (leftmost split wins), then `cmpCont`.  Returns
(left, right, text-after-closer). -/
def cmpWalk (op : Char) (closer : List Char) :
    List Char → Option (List Char × List Char × List Char)
  | [] => none
  | c :: t =>
    if c == '\n' then none
    else
      match cmpCont op closer t with
      | some (r, rest) => some ([c], r, rest)
      | none =>
        match cmpWalk op closer t with
        | some (lft, r, rest) => some (c :: lft, r, rest)
        | none => none

/-- Matcher for `fix_datetime_assertions.py`'s
`^(\s*)\((.+?)\s*>\s*(.+?)\)\.Should\(\)\.BeTrue\(\)` (and the `<`
variant): returns (indent, left, right). -/
def matchCmpDT (op : Char) (l : Line) : Option (Line × Line × Line) :=
  let ind := l.takeWhile isSpaceC
  match l.dropWhile isSpaceC with
  | '(' :: r =>
    match cmpWalk op ").Should().BeTrue()".data r with
    | some (lft, rgt, _) => some (ind, lft, rgt)
    | none => none
  | _ => none

/-- Guard of the temporal comparison rewrites:
`'Time' in line or 'Date' in line`. -/
def dtGuard (l : Line) : Bool :=
  occursIn "Time".data l || occursIn "Date".data l

/-- The `>` comparison rewrite of `fix_datetime_assertions.py`: on a
guarded match the whole line is replaced by
`{indent}{left}.Should().BeAfter({right})`. -/
def dtGtStep (l : Line) : Line :=
  match matchCmpDT '>' l with
  | some (ind, lft, rgt) =>
    if dtGuard l then ind ++ lft ++ ".Should().BeAfter(".data ++ rgt ++ [')']
    else l
  | none => l

/-- The `<` comparison rewrite of `fix_datetime_assertions.py`. -/
def dtLtStep (l : Line) : Line :=
  match matchCmpDT '<' l with
  | some (ind, lft, rgt) =>
    if dtGuard l then ind ++ lft ++ ".Should().BeBefore(".data ++ rgt ++ [')']
    else l
  | none => l

/-- The six unguarded literal substitutions of
`fix_datetime_assertions.py`, in source order. -/
def dtSubs (l : Line) : Line :=
  replaceLit ".Should().BeGreaterThan(".data ".Should().BeAfter(".data
    (replaceLit ".Should().BeLessThan(".data ".Should().BeBefore(".data
      (replaceLit ".Should().BeGreaterOrEqualTo(".data ".Should().BeOnOrAfter(".data
        (replaceLit ".Should().BeGreaterThanOrEqualTo(".data ".Should().BeOnOrAfter(".data
          (replaceLit ".Should().BeLessOrEqualTo(".data ".Should().BeOnOrBefore(".data
            (replaceLit ".Should().BeLessThanOrEqualTo(".data ".Should().BeOnOrBefore(".data l)))))

/-- One line of `fix_datetime_assertions` (`fix_datetime_assertions.py`):
the literal substitutions, then the guarded `>` rewrite, then the guarded
`<` rewrite, each acting on the previous result. -/
def fixDatetimeLine (l : Line) : Line :=
  dtLtStep (dtGtStep (dtSubs l))

/-- `fix_datetime_assertions` over a document (the script splits the
content into lines, rewrites each line, and rejoins). -/
def fix_datetime_assertions (doc : List Line) : List Line :=
  doc.map fixDatetimeLine

/-- Guard of `fix_numeric_assertions.py`:
`'DateTime' in line or 'Time' in line or 'Date' in line`. -/
def numGuard (l : Line) : Bool :=
  occursIn "DateTime".data l || occursIn "Time".data l || occursIn "Date".data l

/-- One line of `fix_numeric_assertions` (`fix_numeric_assertions.py`):
lines containing temporal vocabulary are left alone; otherwise the four
temporal method names are rewritten back to numeric ones, in source
order. -/
def fixNumericLine (l : Line) : Line :=
  if numGuard l then l
  else
    replaceLit ".Should().BeOnOrBefore(".data ".Should().BeLessThanOrEqualTo(".data
      (replaceLit ".Should().BeOnOrAfter(".data ".Should().BeGreaterThanOrEqualTo(".data
        (replaceLit ".Should().BeBefore(".data ".Should().BeLessThan(".data
          (replaceLit ".Should().BeAfter(".data ".Should().BeGreaterThan(".data l)))

/-- `fix_numeric_assertions` over a document. -/
def fix_numeric_assertions (doc : List Line) : List Line :=
  doc.map fixNumericLine

/-! ## `fix_exception_assertions.py`

The only multi-line component.  Literal brace characters are written with
`\x7b` / `\x7d` escapes throughout. -/

/-- Tail of exception pattern 1 after the literal `(() => ` prefix:
`(.*?)\)\.Should\(\)\.Throw<([^>]+)>\(\)(.*?)$`.  The lazy code capture
tries the shortest split first; on a split where the literal matches but
the `<type>()` part fails the engine extends the code capture past it.
Returns (code, exception-type, rest-of-line). -/
def excP1Try (s : List Char) : Option (List Char × List Char) :=
  if pfx ").Should().Throw<".data s then
    let r2 := s.drop 17
    let exc := r2.takeWhile (fun c => c != '>')
    if exc.isEmpty then none
    else
      match r2.drop exc.length with
      | '>' :: '(' :: ')' :: tl => some (exc, tl)
      | _ => none
  else none

def excP1Tail : List Char → Option (List Char × List Char × List Char)
  | [] => none
  | c :: t =>
    match excP1Try (c :: t) with
    | some (e, tl) => some ([], e, tl)
    | none =>
      if c == '\n' then none
      else
        match excP1Tail t with
        | some (cd, e, tl) => some (c :: cd, e, tl)
        | none => none

/-- Exception pattern 1,
`^(\s*)\(\(\) => (.*?)\)\.Should\(\)\.Throw<([^>]+)>\(\)(.*?)$`:
returns (indent, code, exception-type, rest). -/
def excPat1 (l : Line) : Option (Line × Line × Line × Line) :=
  let ind := l.takeWhile isSpaceC
  let r := l.dropWhile isSpaceC
  if pfx "(() => ".data r then
    match excP1Tail (r.drop 7) with
    | some (cd, e, tl) => some (ind, cd, e, tl)
    | none => none
  else none

/-- Tail of exception pattern 2 after the literal `(() => ` prefix:
`(.*?)\.Should\(\)\.Throw<([^>]+)>\(\)\);?$` (anchored at end of line).
Returns (code, exception-type). -/
def excP2Try (s : List Char) : Option (List Char) :=
  if pfx ".Should().Throw<".data s then
    let r2 := s.drop 16
    let exc := r2.takeWhile (fun c => c != '>')
    if exc.isEmpty then none
    else
      match r2.drop exc.length with
      | ['>', '(', ')', ')'] => some exc
      | ['>', '(', ')', ')', ';'] => some exc
      | _ => none
  else none

def excP2Tail : List Char → Option (List Char × List Char)
  | [] => none
  | c :: t =>
    match excP2Try (c :: t) with
    | some e => some ([], e)
    | none =>
      if c == '\n' then none
      else
        match excP2Tail t with
        | some (cd, e) => some (c :: cd, e)
        | none => none

/-- Exception pattern 2,
`^(\s*)\(\(\) => (.*?)\.Should\(\)\.Throw<([^>]+)>\(\)\);?$`:
returns (indent, code, exception-type). -/
def excPat2 (l : Line) : Option (Line × Line × Line) :=
  let ind := l.takeWhile isSpaceC
  let r := l.dropWhile isSpaceC
  if pfx "(() => ".data r then
    match excP2Tail (r.drop 7) with
    | some (cd, e) => some (ind, cd, e)
    | none => none
  else none

/-- Tail of exception pattern 4 after `var\s+\w+\s*=\s*`:
`(.*?)\.Should\(\)\.Throw<([^>]+)>\(\);?$` (anchored at end of line).
Returns (code, exception-type). -/
def excP4Try (s : List Char) : Option (List Char) :=
  if pfx ".Should().Throw<".data s then
    let r2 := s.drop 16
    let exc := r2.takeWhile (fun c => c != '>')
    if exc.isEmpty then none
    else
      match r2.drop exc.length with
      | ['>', '(', ')'] => some exc
      | ['>', '(', ')', ';'] => some exc
      | _ => none
  else none

def excP4Tail : List Char → Option (List Char × List Char)
  | [] => none
  | c :: t =>
    match excP4Try (c :: t) with
    | some e => some ([], e)
    | none =>
      if c == '\n' then none
      else
        match excP4Tail t with
        | some (cd, e) => some (c :: cd, e)
        | none => none

/-- Exception pattern 4,
`^(\s*)var\s+\w+\s*=\s*(.*?)\.Should\(\)\.Throw<([^>]+)>\(\);?$`:
returns (indent, code, exception-type). -/
def excPat4 (l : Line) : Option (Line × Line × Line) :=
  let ind := l.takeWhile isSpaceC
  let r := l.dropWhile isSpaceC
  if pfx "var".data r then
    let r1 := r.drop 3
    let ws1 := r1.takeWhile isSpaceC
    if ws1.isEmpty then none
    else
      let r2 := r1.drop ws1.length
      let w := r2.takeWhile isWordC
      if w.isEmpty then none
      else
        match (r2.drop w.length).dropWhile isSpaceC with
        | '=' :: r3 =>
          match excP4Tail (r3.dropWhile isSpaceC) with
          | some (cd, e) => some (ind, cd, e)
          | none => none
        | _ => none
  else none

/-- `re.search(r'\.Should\(\)\.Throw<([^>]+)>', s)`: first position where
the literal prefix is followed by a non-empty angle-bracketed capture. -/
def throwTry (s : List Char) : Option (List Char) :=
  if pfx ".Should().Throw<".data s then
    let r2 := s.drop 16
    let exc := r2.takeWhile (fun c => c != '>')
    if exc.isEmpty then none
    else
      match r2.drop exc.length with
      | '>' :: _ => some exc
      | _ => none
  else none

def throwSearch : List Char → Option (List Char)
  | [] => none
  | c :: t =>
    match throwTry (c :: t) with
    | some e => some e
    | none => throwSearch t

/-- A line on which the block-accumulation loop stops:
`'}).Should().Throw' in line or '});' in line`. -/
def isCloserLine (l : Line) : Bool :=
  occursIn "\x7d).Should().Throw".data l || occursIn "\x7d);".data l

/-- Split a list of lines at the first closing-marker line: returns
(lines before it, the closing line, lines after it). -/
def scanBlock : List Line → Option (List Line × Line × List Line)
  | [] => none
  | x :: xs =>
    if isCloserLine x then some ([], x, xs)
    else
      match scanBlock xs with
      | some (b, c, r) => some (x :: b, c, r)
      | none => none

theorem scanBlock_eq (ls : List Line) (pre : List Line) (c : Line)
    (post : List Line) (h : scanBlock ls = some (pre, c, post)) :
    ls = pre ++ c :: post := by
  induction ls generalizing pre with
  | nil => simp [scanBlock] at h
  | cons x xs ih =>
    simp only [scanBlock] at h
    by_cases hc : isCloserLine x
    · simp only [hc, if_true] at h
      obtain ⟨rfl, rfl, rfl⟩ := by
        simpa using h
      simp
    · simp only [hc, Bool.false_eq_true, if_false] at h
      cases hs : scanBlock xs with
      | some v =>
        obtain ⟨b, cc, r⟩ := v
        rw [hs] at h
        simp only [Option.some.injEq, Prod.mk.injEq] at h
        obtain ⟨h1, h2, h3⟩ := h
        subst h1; subst h2; subst h3
        simp [ih _ hs]
      | none => rw [hs] at h; simp at h

/-- The multi-line block branch of `fix_exception_assertions.py`
(pattern 3): on a line containing a deferred-evaluation opening marker,
accumulate lines up to the first closing-marker line; if the joined
accumulated text contains `.Should().Throw` and the closing line yields an
exception type, emit the normalized replacement and resume after the
closing line.  Returns `some (emitted lines, remaining lines)` when the
rewrite fires. -/
def excBlockResult (l : Line) (rest : List Line) :
    Option (List Line × List Line) :=
  if occursIn "(() => \x7b".data l || occursIn "(() =>".data l then
    match scanBlock (l :: rest) with
    | some (pre, closer, post) =>
      if occursIn ".Should().Throw".data ((pre ++ [closer]).flatten) then
        match throwSearch closer with
        | some exc =>
          let ind := l.takeWhile isSpaceC
          some ((ind ++ "// Act & Assert".data)
              :: (ind ++ "Action act = () =>".data)
              :: (ind ++ ['\x7b'])
              :: (pre.drop 1
                ++ [ind ++ "\x7d;".data,
                    ind ++ "act.Should().Throw<".data ++ exc ++ ">();".data]),
            post)
        | none => none
      else none
    | none => none
  else none

theorem excBlockResult_post_le (l : Line) (rest : List Line)
    (e : List Line) (post : List Line)
    (h : excBlockResult l rest = some (e, post)) :
    post.length ≤ rest.length := by
  unfold excBlockResult at h
  split at h
  · split at h
    · rename_i pre closer post' hs
      split at h
      · split at h
        · simp only [Option.some.injEq, Prod.mk.injEq] at h
          obtain ⟨-, rfl⟩ := h
          have hlen := scanBlock_eq _ _ _ _ hs
          have hlen2 : (l :: rest).length = (pre ++ closer :: post').length := by
            rw [hlen]
          simp only [List.length_cons, List.length_append] at hlen2
          omega
        · exact absurd h (by simp)
      · exact absurd h (by simp)
    · exact absurd h (by simp)
  · exact absurd h (by simp)

/-- The line scanner of `fix_exception_assertions.py`, with fuel (the
number of remaining lines bounds the recursion; the top-level wrapper
passes exactly that).  Patterns are tried in source order: pattern 1,
pattern 2, the multi-line block (pattern 3), pattern 4, else the line is
copied. -/
def fixExcF : Nat → List Line → List Line
  | 0, ls => ls
  | _ + 1, [] => []
  | n + 1, l :: rest =>
    match excPat1 l with
    | some (ind, cd, exc, tl) =>
      let cd' := if occursIn ".Should()".data cd
                 then beforeFirst ".Should()".data cd else cd
      (ind ++ "// Act & Assert".data)
        :: (ind ++ "Action act = () => ".data ++ cd' ++ [';'])
        :: (ind ++ "act.Should().Throw<".data ++ exc ++ ">()".data ++ tl)
        :: fixExcF n rest
    | none =>
    match excPat2 l with
    | some (ind, cd, exc) =>
      (ind ++ "// Act & Assert".data)
        :: (ind ++ "Action act = () => ".data ++ cd ++ [';'])
        :: (ind ++ "act.Should().Throw<".data ++ exc ++ ">();".data)
        :: fixExcF n rest
    | none =>
    match excBlockResult l rest with
    | some (emitted, post) => emitted ++ fixExcF n post
    | none =>
    match excPat4 l with
    | some (ind, cd, exc) =>
      (ind ++ "// Act & Assert".data)
        :: (ind ++ "Action act = () => ".data ++ cd ++ [';'])
        :: (ind ++ "act.Should().Throw<".data ++ exc ++ ">();".data)
        :: fixExcF n rest
    | none => l :: fixExcF n rest

/-- `fix_exception_assertions` over a document
(`fix_exception_assertions.py`). -/
def fix_exception_assertions (doc : List Line) : List Line :=
  fixExcF doc.length doc

/-! ## Bracket-indexing and single-line substitution rules -/

/-- Matcher for `NAME\[(\d+)\.` → `NAME[\1].` (with `NAME = []` this is
`fix_final_issues.py`'s unguarded `\[(\d+)\.` rule).  The greedy digit run
is deterministic: a shorter run would be followed by a digit, not the
required dot. -/
def tryBracket (name : List Char) (s : List Char) : Option (List Char × Nat) :=
  if pfx (name ++ ['[']) s then
    let rest := s.drop (name.length + 1)
    let ds := rest.takeWhile Char.isDigit
    if ds.isEmpty then none
    else
      match rest.drop ds.length with
      | '.' :: _ =>
        some (name ++ ['['] ++ ds ++ [']', '.'], name.length + ds.length + 1)
      | _ => none
  else none

/-- The bracket sub for one identifier name, e.g.
`re.sub(r'results\[(\d+)\.', r'results[\1].', line)`. -/
def bracketSub (name : List Char) (l : Line) : Line :=
  subScan (tryBracket name) l

/-- Matcher for `fix_lambda_assertions.py`'s
`\.All\((\w+) =\.Should\(\)\.BeGreaterThan\(([^)]+)\)\)` →
`.All(\1 => \2).Should().BeTrue()`. -/
def tryAllSub (s : List Char) : Option (List Char × Nat) :=
  if pfx ".All(".data s then
    let r1 := s.drop 5
    let w := r1.takeWhile isWordC
    if w.isEmpty then none
    else
      let r2 := r1.drop w.length
      if pfx " =.Should().BeGreaterThan(".data r2 then
        let r3 := r2.drop 26
        let cap := r3.takeWhile (fun c => c != ')')
        if cap.isEmpty then none
        else
          match r3.drop cap.length with
          | ')' :: ')' :: _ =>
            some (".All(".data ++ w ++ " => ".data ++ cap
                    ++ ").Should().BeTrue()".data,
                  5 + w.length + 26 + cap.length + 1)
          | _ => none
      else none
  else none

/-- One line of `fix_lambda_assertions` (`fix_lambda_assertions.py`): the
`.All` repair, then the bracket repairs for the five enumerated
identifiers, in source order. -/
def fixLambdaLine (l : Line) : Line :=
  bracketSub "entries".data
    (bracketSub "list".data
      (bracketSub "items".data
        (bracketSub "entities".data
          (bracketSub "results".data
            (subScan tryAllSub l)))))

/-- `fix_lambda_assertions` over a document. -/
def fix_lambda_assertions (doc : List Line) : List Line :=
  doc.map fixLambdaLine

/-- Matcher for `fix_all_assertion_issues.py`'s
`sql\.Should\(\)\.Contain\(([^)]+)\)\)` → `sql.Should().Contain(\1)`.
The greedy `[^)]+` capture is deterministic (it must stop at the first
closing parenthesis, which then has to be doubled). -/
def trySqlParen (s : List Char) : Option (List Char × Nat) :=
  if pfx "sql.Should().Contain(".data s then
    let r1 := s.drop 21
    let cap := r1.takeWhile (fun c => c != ')')
    if cap.isEmpty then none
    else
      match r1.drop cap.length with
      | ')' :: ')' :: _ =>
        some ("sql.Should().Contain(".data ++ cap ++ [')'],
              21 + cap.length + 1)
      | _ => none
  else none

/-- Matcher for `fix_all_assertion_issues.py`'s
`sql\.Should\(\)\.Contain\("([^"]+)"\)\);` → `sql.Should().Contain("\1");`. -/
def trySqlParenQuote (s : List Char) : Option (List Char × Nat) :=
  if pfx "sql.Should().Contain(\"".data s then
    let r1 := s.drop 22
    let cap := r1.takeWhile (fun c => c != '"')
    if cap.isEmpty then none
    else
      match r1.drop cap.length with
      | '"' :: ')' :: ')' :: ';' :: _ =>
        some ("sql.Should().Contain(\"".data ++ cap ++ "\");".data,
              22 + cap.length + 3)
      | _ => none
  else none

/-- One line of `fix_all_assertion_issues.py`'s `fix_assertion_issues`:
bracket repairs for the four enumerated identifiers, then the two `sql`
parenthesis repairs, in source order. -/
def fixAllIssuesLine (l : Line) : Line :=
  subScan trySqlParenQuote
    (subScan trySqlParen
      (bracketSub "list".data
        (bracketSub "items".data
          (bracketSub "entities".data
            (bracketSub "results".data l)))))

/-- `fix_assertion_issues` of `fix_all_assertion_issues.py` over a
document. -/
def fix_all_assertion_issues (doc : List Line) : List Line :=
  doc.map fixAllIssuesLine

/-- Matcher for `fix_final_issues.py`'s
`(\w+) =\.Should\(\)\.BeGreaterThan\(([^)]+)\)` →
`\1 => \2).Should().BeTrue(`. -/
def tryEqShouldGt (s : List Char) : Option (List Char × Nat) :=
  let w := s.takeWhile isWordC
  if w.isEmpty then none
  else
    let r1 := s.drop w.length
    if pfx " =.Should().BeGreaterThan(".data r1 then
      let r2 := r1.drop 26
      let cap := r2.takeWhile (fun c => c != ')')
      if cap.isEmpty then none
      else
        match r2.drop cap.length with
        | ')' :: _ =>
          some (w ++ " => ".data ++ cap ++ ").Should().BeTrue(".data,
                w.length + 26 + cap.length)
        | _ => none
    else none

/-- One line of `fix_all_issues` (`fix_final_issues.py`): the lambda
repair, then the unguarded bracket repair, in source order. -/
def fixFinalLine (l : Line) : Line :=
  bracketSub [] (subScan tryEqShouldGt l)

/-- `fix_all_issues` of `fix_final_issues.py` over a document. -/
def fix_all_issues (doc : List Line) : List Line :=
  doc.map fixFinalLine

/-! ## `fix_remaining_assertions.py` -/

/-- The single-quote character (avoids a literal quote in the source). -/
def squoteC : Char := Char.ofNat 39

/-- Matcher for `(\w+)\(\.Should\(\)\.Be(\w+)\(\)\)` → `\1.Should().Be\2()`.
Both greedy word captures are deterministic (shrinking them leaves a word
character where a parenthesis is required). -/
def tryWordShouldBe (s : List Char) : Option (List Char × Nat) :=
  let w1 := s.takeWhile isWordC
  if w1.isEmpty then none
  else
    let p := "(.Should().Be".data
    let r1 := s.drop w1.length
    if pfx p r1 then
      let r2 := r1.drop p.length
      let w2 := r2.takeWhile isWordC
      if w2.isEmpty then none
      else
        match r2.drop w2.length with
        | '(' :: ')' :: ')' :: _ =>
          some (w1 ++ ".Should().Be".data ++ w2 ++ "()".data,
                w1.length + p.length + w2.length + 2)
        | _ => none
    else none

/-- Matcher for `\.First\(\.Should\(\)\.BeTrue\(\)\.(\w+)\)` →
`.First().\1.Should().BeTrue()`. -/
def tryFirstTrue (s : List Char) : Option (List Char × Nat) :=
  let p := ".First(.Should().BeTrue().".data
  if pfx p s then
    let r1 := s.drop p.length
    let w := r1.takeWhile isWordC
    if w.isEmpty then none
    else
      match r1.drop w.length with
      | ')' :: _ =>
        some (".First().".data ++ w ++ ".Should().BeTrue()".data,
              p.length + w.length)
      | _ => none
  else none

/-- Matcher for `\.First\(\.Should\(\)\.BeFalse\(\)\.(\w+)\)` →
`.First().\1.Should().BeFalse()`. -/
def tryFirstFalse (s : List Char) : Option (List Char × Nat) :=
  let p := ".First(.Should().BeFalse().".data
  if pfx p s then
    let r1 := s.drop p.length
    let w := r1.takeWhile isWordC
    if w.isEmpty then none
    else
      match r1.drop w.length with
      | ')' :: _ =>
        some (".First().".data ++ w ++ ".Should().BeFalse()".data,
              p.length + w.length)
      | _ => none
  else none

/-- Matcher for `(\w+)\(\.Should\(\)\.BeTrue\(\)\)` → `\1.Should().BeTrue()`. -/
def tryWordTrue (s : List Char) : Option (List Char × Nat) :=
  let w1 := s.takeWhile isWordC
  if w1.isEmpty then none
  else
    let p := "(.Should().BeTrue())".data
    if pfx p (s.drop w1.length) then
      some (w1 ++ ".Should().BeTrue()".data, w1.length + p.length - 1)
    else none

/-- Matcher for `(\w+)\(\.Should\(\)\.BeFalse\(\)\)` → `\1.Should().BeFalse()`. -/
def tryWordFalse (s : List Char) : Option (List Char × Nat) :=
  let w1 := s.takeWhile isWordC
  if w1.isEmpty then none
  else
    let p := "(.Should().BeFalse())".data
    if pfx p (s.drop w1.length) then
      some (w1 ++ ".Should().BeFalse()".data, w1.length + p.length - 1)
    else none

/-- Matcher for `(\w+)\.Contains\("([^"]+)"\.Should\(\)\.BeTrue\(\)\)` →
`\1.Should().Contain("\2")`. -/
def tryContainsQuote (s : List Char) : Option (List Char × Nat) :=
  let w1 := s.takeWhile isWordC
  if w1.isEmpty then none
  else
    let p := ".Contains(\"".data
    let r1 := s.drop w1.length
    if pfx p r1 then
      let r2 := r1.drop p.length
      let cap := r2.takeWhile (fun c => c != '"')
      if cap.isEmpty then none
      else
        let q := "\".Should().BeTrue())".data
        if pfx q (r2.drop cap.length) then
          some (w1 ++ ".Should().Contain(\"".data ++ cap ++ "\")".data,
                w1.length + p.length + cap.length + q.length - 1)
        else none
    else none

/-- Matcher for the single-quoted variant
`(\w+)\.Contains\('([^']+)'\.Should\(\)\.BeTrue\(\)\)` →
`\1.Should().Contain('\2')`. -/
def tryContainsSquote (s : List Char) : Option (List Char × Nat) :=
  let w1 := s.takeWhile isWordC
  if w1.isEmpty then none
  else
    let p := ".Contains(".data ++ [squoteC]
    let r1 := s.drop w1.length
    if pfx p r1 then
      let r2 := r1.drop p.length
      let cap := r2.takeWhile (fun c => c != squoteC)
      if cap.isEmpty then none
      else
        let q := [squoteC] ++ ".Should().BeTrue())".data
        if pfx q (r2.drop cap.length) then
          some (w1 ++ ".Should().Contain(".data ++ [squoteC] ++ cap ++ [squoteC, ')'],
                w1.length + p.length + cap.length + q.length - 1)
        else none
    else none

/-- Non-empty `[^)]+` capture up to the literal `closer` (at most one such
split exists because the closer itself contains a closing parenthesis, so
greedy and lazy agree here). -/
def capToCloserNP (closer : List Char) :
    List Char → Option (List Char × List Char)
  | [] => none
  | c :: t =>
    if c == ')' then none
    else if pfx closer t then some ([c], t.drop closer.length)
    else
      match capToCloserNP closer t with
      | some (cap, r) => some (c :: cap, r)
      | none => none

/-- Matcher for
`sql\.Contains\(([^)]+)\.Should\(\)\.BeTrue\(\)([^)]*)\)` →
`sql.Should().Contain(\1\2)`. -/
def trySqlContainsBody (s : List Char) : Option (List Char × Nat) :=
  let p := "sql.Contains(".data
  if pfx p s then
    let q := ".Should().BeTrue()".data
    match capToCloserNP q (s.drop p.length) with
    | some (cap1, r1) =>
      let cap2 := r1.takeWhile (fun c => c != ')')
      match r1.drop cap2.length with
      | ')' :: _ =>
        some ("sql.Should().Contain(".data ++ cap1 ++ cap2 ++ [')'],
              p.length + cap1.length + q.length + cap2.length)
      | _ => none
    | none => none
  else none

/-- The closing literal of the comparison-to-assertion rewrites of
`fix_remaining_assertions.py`. -/
def remCloser : List Char := ".Should().BeTrue()".data

/-- The `^(\s*)(.+?)\s*OP\s*(.+?)\.Should\(\)\.BeTrue\(\)(.*)$` matcher:
the greedy leading-whitespace capture is tried longest first, and on
failure whitespace is given back to the lazy left operand (`k` counts the
characters kept by the whitespace group).  Returns
(indent, left, right, rest). -/
def remCmpK (op : Char) (l : Line) :
    Nat → Option (Line × Line × Line × Line)
  | 0 =>
    match cmpWalk op remCloser l with
    | some (lft, r, rest) => some ([], lft, r, rest)
    | none => none
  | k + 1 =>
    match cmpWalk op remCloser (l.drop (k + 1)) with
    | some (lft, r, rest) => some (l.take (k + 1), lft, r, rest)
    | none => remCmpK op l k

/-- Matcher entry point (see `remCmpK`). -/
def matchCmpRem (op : Char) (l : Line) :
    Option (Line × Line × Line × Line) :=
  remCmpK op l (l.takeWhile isSpaceC).length

/-- The `>` comparison rewrite of `fix_remaining_assertions.py`:
`{indent}{left}.Should().BeGreaterThan({right}){rest}`. -/
def remGtStep (l : Line) : Line :=
  match matchCmpRem '>' l with
  | some (ind, lft, rgt, rest) =>
    ind ++ lft ++ ".Should().BeGreaterThan(".data ++ rgt ++ [')'] ++ rest
  | none => l

/-- The `<` comparison rewrite of `fix_remaining_assertions.py`. -/
def remLtStep (l : Line) : Line :=
  match matchCmpRem '<' l with
  | some (ind, lft, rgt, rest) =>
    ind ++ lft ++ ".Should().BeLessThan(".data ++ rgt ++ [')'] ++ rest
  | none => l

/-- `\s+` then `(.+?)\s*>\s*(.+?)CLOSER…` for the third comparison
pattern: the greedy `\s+` group is tried longest first (`j` is its
length). -/
def thirdJ (t : List Char) : Nat → Option (Line × Line × Line)
  | 0 => none
  | j + 1 =>
    match cmpWalk '>' remCloser (t.drop (j + 1)) with
    | some x => some x
    | none => thirdJ t j

/-- Lazy prefix capture of the third comparison pattern
`(\s*)(.+?)\s+(.+?)\s*>\s*(.+?)\.Should\(\)\.BeTrue\(\)(.*)$`: returns
(prefix, left, right, rest). -/
def thirdPreWalk : List Char → Option (Line × Line × Line × Line)
  | [] => none
  | c :: t =>
    if c == '\n' then none
    else
      match thirdJ t (t.takeWhile isSpaceC).length with
      | some (lft, r, rest) => some ([c], lft, r, rest)
      | none =>
        match thirdPreWalk t with
        | some (p, lft, r, rest) => some (c :: p, lft, r, rest)
        | none => none

/-- Leading-whitespace loop of the third comparison pattern. -/
def thirdK (l : Line) :
    Nat → Option (Line × Line × Line × Line × Line)
  | 0 =>
    match thirdPreWalk l with
    | some (p, lft, r, rest) => some ([], p, lft, r, rest)
    | none => none
  | k + 1 =>
    match thirdPreWalk (l.drop (k + 1)) with
    | some (p, lft, r, rest) => some (l.take (k + 1), p, lft, r, rest)
    | none => thirdK l k

/-- Matcher entry point for the third comparison pattern. -/
def matchThird (l : Line) : Option (Line × Line × Line × Line × Line) :=
  thirdK l (l.takeWhile isSpaceC).length

/-- Python's `str.strip()` for whitespace. -/
def pyStrip (l : Line) : Line :=
  ((l.dropWhile isSpaceC).reverse.dropWhile isSpaceC).reverse

/-- `l` ends with the literal `suf`. -/
def endsWithL (suf l : Line) : Bool :=
  pfx suf.reverse l.reverse

/-- The guarded third comparison rewrite of `fix_remaining_assertions.py`:
only attempted when the line contains ` > ` and its stripped form ends
with `.Should().BeTrue()`; on a match the line becomes
`{indent}{prefix} {left}.Should().BeGreaterThan({right}){rest}`. -/
def remThirdStep (l : Line) : Line :=
  if occursIn " > ".data l && endsWithL remCloser (pyStrip l) then
    match matchThird l with
    | some (ind, pre, lft, rgt, rest) =>
      ind ++ pre ++ [' '] ++ lft ++ ".Should().BeGreaterThan(".data
        ++ rgt ++ [')'] ++ rest
    | none => l
  else l

/-- One line of `fix_assertion_issues` of `fix_remaining_assertions.py`:
the eight substitutions, then the `>` rewrite, the `<` rewrite, and the
third comparison rewrite, in source order, each acting on the previous
result. -/
def fixRemainingLine (l : Line) : Line :=
  remThirdStep (remLtStep (remGtStep
    (subScan trySqlContainsBody
      (subScan tryContainsSquote
        (subScan tryContainsQuote
          (subScan tryWordFalse
            (subScan tryWordTrue
              (subScan tryFirstFalse
                (subScan tryFirstTrue
                  (subScan tryWordShouldBe l))))))))))

/-- `fix_assertion_issues` of `fix_remaining_assertions.py` over a
document. -/
def fix_remaining_assertions (doc : List Line) : List Line :=
  doc.map fixRemainingLine

/-! ## The full Rule Set

The seven scripts in their chronological order (the temporal and numeric
families first, as two separate passes governed by the Context Guard, then
the exception machine, then the later clean-up scripts), composed into one
document transformation.  Each script reads the files, applies its
transformation function and writes back, so running the collection is the
composition of the per-script document functions. -/

/-- The full Rule Set: all seven transformation functions in order. -/
def applyRuleSet (doc : List Line) : List Line :=
  fix_all_issues
    (fix_all_assertion_issues
      (fix_remaining_assertions
        (fix_lambda_assertions
          (fix_exception_assertions
            (fix_numeric_assertions
              (fix_datetime_assertions doc))))))

/-- The Document Transformer: the transformed document together with the
changed flag (`content != original_content` in every script). -/
def transform (doc : List Line) : List Line × Bool :=
  (applyRuleSet doc, decide (applyRuleSet doc ≠ doc))

/-! ## Recognized malformed shapes

A line "contains a recognized malformed shape" precisely when some rule's
matcher (including its contextual guard, where the rule has one) fires on
it.  One predicate per script, then their disjunction. -/

/-- A matcher of `fix_datetime_assertions.py` fires on the line. -/
def dtShape (l : Line) : Bool :=
  hasMatch (tryLit ".Should().BeLessThanOrEqualTo(".data ".Should().BeOnOrBefore(".data) l
  || hasMatch (tryLit ".Should().BeLessOrEqualTo(".data ".Should().BeOnOrBefore(".data) l
  || hasMatch (tryLit ".Should().BeGreaterThanOrEqualTo(".data ".Should().BeOnOrAfter(".data) l
  || hasMatch (tryLit ".Should().BeGreaterOrEqualTo(".data ".Should().BeOnOrAfter(".data) l
  || hasMatch (tryLit ".Should().BeLessThan(".data ".Should().BeBefore(".data) l
  || hasMatch (tryLit ".Should().BeGreaterThan(".data ".Should().BeAfter(".data) l
  || ((matchCmpDT '>' l).isSome && dtGuard l)
  || ((matchCmpDT '<' l).isSome && dtGuard l)

/-- A matcher of `fix_numeric_assertions.py` fires on the line (the whole
script is guarded by the absence of temporal vocabulary). -/
def numShape (l : Line) : Bool :=
  !numGuard l
  && (hasMatch (tryLit ".Should().BeAfter(".data ".Should().BeGreaterThan(".data) l
      || hasMatch (tryLit ".Should().BeBefore(".data ".Should().BeLessThan(".data) l
      || hasMatch (tryLit ".Should().BeOnOrAfter(".data ".Should().BeGreaterThanOrEqualTo(".data) l
      || hasMatch (tryLit ".Should().BeOnOrBefore(".data ".Should().BeLessThanOrEqualTo(".data) l)

/-- A matcher or the block-opening marker of
`fix_exception_assertions.py` fires on the line. -/
def excShape (l : Line) : Bool :=
  (excPat1 l).isSome || (excPat2 l).isSome
  || occursIn "(() => \x7b".data l || occursIn "(() =>".data l
  || (excPat4 l).isSome

/-- A matcher of `fix_lambda_assertions.py` fires on the line. -/
def lamShape (l : Line) : Bool :=
  hasMatch tryAllSub l
  || hasMatch (tryBracket "results".data) l
  || hasMatch (tryBracket "entities".data) l
  || hasMatch (tryBracket "items".data) l
  || hasMatch (tryBracket "list".data) l
  || hasMatch (tryBracket "entries".data) l

/-- A matcher of `fix_all_assertion_issues.py` fires on the line. -/
def allIssuesShape (l : Line) : Bool :=
  hasMatch (tryBracket "results".data) l
  || hasMatch (tryBracket "entities".data) l
  || hasMatch (tryBracket "items".data) l
  || hasMatch (tryBracket "list".data) l
  || hasMatch trySqlParen l
  || hasMatch trySqlParenQuote l

/-- A matcher of `fix_remaining_assertions.py` fires on the line. -/
def remShape (l : Line) : Bool :=
  hasMatch tryWordShouldBe l
  || hasMatch tryFirstTrue l
  || hasMatch tryFirstFalse l
  || hasMatch tryWordTrue l
  || hasMatch tryWordFalse l
  || hasMatch tryContainsQuote l
  || hasMatch tryContainsSquote l
  || hasMatch trySqlContainsBody l
  || (matchCmpRem '>' l).isSome
  || (matchCmpRem '<' l).isSome
  || (occursIn " > ".data l && endsWithL remCloser (pyStrip l)
      && (matchThird l).isSome)

/-- A matcher of `fix_final_issues.py` fires on the line. -/
def finShape (l : Line) : Bool :=
  hasMatch tryEqShouldGt l || hasMatch (tryBracket []) l

/-- The line contains one of the recognized malformed shapes: some rule of
some script (matcher plus guard) fires on it. -/
def recognizedShape (l : Line) : Bool :=
  dtShape l || numShape l || excShape l || lamShape l
  || allIssuesShape l || remShape l || finShape l

/-! ## No-op lemmas: a line without a shape passes through unchanged -/

theorem map_self_of_fix (f : Line → Line) :
    ∀ ls : List Line, (∀ l ∈ ls, f l = l) → ls.map f = ls := by
  intro ls h
  induction ls with
  | nil => rfl
  | cons x xs ih =>
    simp only [List.map_cons]
    rw [h x (by simp), ih (fun l hl => h l (by simp [hl]))]

theorem fixDatetimeLine_of_no_shape (l : Line) (h : dtShape l = false) :
    fixDatetimeLine l = l := by
  simp only [dtShape, Bool.or_eq_false_iff, Bool.and_eq_false_iff] at h
  obtain ⟨⟨⟨⟨⟨⟨⟨h1, h2⟩, h3⟩, h4⟩, h5⟩, h6⟩, h7⟩, h8⟩ := h
  have hsubs : dtSubs l = l := by
    unfold dtSubs replaceLit
    rw [subScan_of_not_hasMatch _ _ h1, subScan_of_not_hasMatch _ _ h2,
        subScan_of_not_hasMatch _ _ h3, subScan_of_not_hasMatch _ _ h4,
        subScan_of_not_hasMatch _ _ h5, subScan_of_not_hasMatch _ _ h6]
  have hgt : dtGtStep l = l := by
    unfold dtGtStep
    cases hm : matchCmpDT '>' l with
    | none => rfl
    | some v =>
      obtain ⟨i, a, b⟩ := v
      rcases h7 with h7 | h7
      · rw [hm] at h7; simp at h7
      · simp [h7]
  have hlt : dtLtStep l = l := by
    unfold dtLtStep
    cases hm : matchCmpDT '<' l with
    | none => rfl
    | some v =>
      obtain ⟨i, a, b⟩ := v
      rcases h8 with h8 | h8
      · rw [hm] at h8; simp at h8
      · simp [h8]
  unfold fixDatetimeLine
  rw [hsubs, hgt, hlt]

theorem fixNumericLine_of_no_shape (l : Line) (h : numShape l = false) :
    fixNumericLine l = l := by
  unfold fixNumericLine
  by_cases hg : numGuard l
  · simp [hg]
  · simp only [numShape, Bool.and_eq_false_iff, Bool.not_eq_false',
      Bool.or_eq_false_iff] at h
    rcases h with h | h
    · exact absurd h (by simp [hg])
    · obtain ⟨⟨⟨h1, h2⟩, h3⟩, h4⟩ := h
      unfold replaceLit
      rw [if_neg hg, subScan_of_not_hasMatch _ _ h1,
          subScan_of_not_hasMatch _ _ h2, subScan_of_not_hasMatch _ _ h3,
          subScan_of_not_hasMatch _ _ h4]

theorem fixExcF_of_inert :
    ∀ (n : Nat) (ls : List Line), (∀ l ∈ ls, excShape l = false) →
      fixExcF n ls = ls := by
  intro n
  induction n with
  | zero => intro ls _; rfl
  | succ n ih =>
    intro ls h
    cases ls with
    | nil => rfl
    | cons l rest =>
      have hl : excShape l = false := h l (by simp)
      simp only [excShape, Bool.or_eq_false_iff] at hl
      obtain ⟨⟨⟨⟨hp1, hp2⟩, ht1⟩, ht2⟩, hp4⟩ := hl
      have hb : excBlockResult l rest = none := by
        unfold excBlockResult
        rw [if_neg (by simp [ht1, ht2])]
      simp only [fixExcF]
      cases hm1 : excPat1 l with
      | some v => rw [hm1] at hp1; simp at hp1
      | none =>
        cases hm2 : excPat2 l with
        | some v => rw [hm2] at hp2; simp at hp2
        | none =>
          rw [hb]
          cases hm4 : excPat4 l with
          | some v => rw [hm4] at hp4; simp at hp4
          | none => rw [ih rest (fun x hx => h x (by simp [hx]))]

theorem fixLambdaLine_of_no_shape (l : Line) (h : lamShape l = false) :
    fixLambdaLine l = l := by
  simp only [lamShape, Bool.or_eq_false_iff] at h
  obtain ⟨⟨⟨⟨⟨h1, h2⟩, h3⟩, h4⟩, h5⟩, h6⟩ := h
  unfold fixLambdaLine bracketSub
  rw [subScan_of_not_hasMatch _ _ h1, subScan_of_not_hasMatch _ _ h2,
      subScan_of_not_hasMatch _ _ h3, subScan_of_not_hasMatch _ _ h4,
      subScan_of_not_hasMatch _ _ h5, subScan_of_not_hasMatch _ _ h6]

theorem fixAllIssuesLine_of_no_shape (l : Line)
    (h : allIssuesShape l = false) : fixAllIssuesLine l = l := by
  simp only [allIssuesShape, Bool.or_eq_false_iff] at h
  obtain ⟨⟨⟨⟨⟨h1, h2⟩, h3⟩, h4⟩, h5⟩, h6⟩ := h
  unfold fixAllIssuesLine bracketSub
  rw [subScan_of_not_hasMatch _ _ h1, subScan_of_not_hasMatch _ _ h2,
      subScan_of_not_hasMatch _ _ h3, subScan_of_not_hasMatch _ _ h4,
      subScan_of_not_hasMatch _ _ h5, subScan_of_not_hasMatch _ _ h6]

theorem fixRemainingLine_of_no_shape (l : Line) (h : remShape l = false) :
    fixRemainingLine l = l := by
  simp only [remShape, Bool.or_eq_false_iff, Bool.and_eq_false_iff] at h
  obtain ⟨⟨⟨⟨⟨⟨⟨⟨⟨⟨h1, h2⟩, h3⟩, h4⟩, h5⟩, h6⟩, h7⟩, h8⟩, h9⟩, h10⟩, h11⟩ := h
  have hgt : remGtStep l = l := by
    unfold remGtStep
    cases hm : matchCmpRem '>' l with
    | none => rfl
    | some v => rw [hm] at h9; simp at h9
  have hlt : remLtStep l = l := by
    unfold remLtStep
    cases hm : matchCmpRem '<' l with
    | none => rfl
    | some v => rw [hm] at h10; simp at h10
  have hthird : remThirdStep l = l := by
    unfold remThirdStep
    rcases h11 with h11 | h11
    · rcases h11 with h11 | h11 <;> simp [h11]
    · cases hm : matchThird l with
      | none =>
        by_cases hc : (occursIn " > ".data l && endsWithL remCloser (pyStrip l) : Bool)
        · rw [if_pos hc]
        · rw [if_neg hc]
      | some v => rw [hm] at h11; simp at h11
  unfold fixRemainingLine
  rw [subScan_of_not_hasMatch _ _ h1, subScan_of_not_hasMatch _ _ h2,
      subScan_of_not_hasMatch _ _ h3, subScan_of_not_hasMatch _ _ h4,
      subScan_of_not_hasMatch _ _ h5, subScan_of_not_hasMatch _ _ h6,
      subScan_of_not_hasMatch _ _ h7, subScan_of_not_hasMatch _ _ h8,
      hgt, hlt, hthird]

theorem fixFinalLine_of_no_shape (l : Line) (h : finShape l = false) :
    fixFinalLine l = l := by
  simp only [finShape, Bool.or_eq_false_iff] at h
  obtain ⟨h1, h2⟩ := h
  unfold fixFinalLine bracketSub
  rw [subScan_of_not_hasMatch _ _ h1, subScan_of_not_hasMatch _ _ h2]

/-- A document none of whose lines has a recognized malformed shape passes
through the whole Rule Set unchanged. -/
theorem applyRuleSet_of_no_shape (doc : List Line)
    (h : ∀ l ∈ doc, recognizedShape l = false) : applyRuleSet doc = doc := by
  have hsplit : ∀ l ∈ doc, dtShape l = false ∧ numShape l = false
      ∧ excShape l = false ∧ lamShape l = false ∧ allIssuesShape l = false
      ∧ remShape l = false ∧ finShape l = false := by
    intro l hl
    have := h l hl
    simp only [recognizedShape, Bool.or_eq_false_iff] at this
    tauto
  have h1 : fix_datetime_assertions doc = doc :=
    map_self_of_fix _ _ fun l hl =>
      fixDatetimeLine_of_no_shape l (hsplit l hl).1
  have h2 : fix_numeric_assertions doc = doc :=
    map_self_of_fix _ _ fun l hl =>
      fixNumericLine_of_no_shape l (hsplit l hl).2.1
  have h3 : fix_exception_assertions doc = doc :=
    fixExcF_of_inert _ _ fun l hl => (hsplit l hl).2.2.1
  have h4 : fix_lambda_assertions doc = doc :=
    map_self_of_fix _ _ fun l hl =>
      fixLambdaLine_of_no_shape l (hsplit l hl).2.2.2.1
  have h5 : fix_all_assertion_issues doc = doc :=
    map_self_of_fix _ _ fun l hl =>
      fixAllIssuesLine_of_no_shape l (hsplit l hl).2.2.2.2.1
  have h6 : fix_remaining_assertions doc = doc :=
    map_self_of_fix _ _ fun l hl =>
      fixRemainingLine_of_no_shape l (hsplit l hl).2.2.2.2.2.1
  have h7 : fix_all_issues doc = doc :=
    map_self_of_fix _ _ fun l hl =>
      fixFinalLine_of_no_shape l (hsplit l hl).2.2.2.2.2.2
  unfold applyRuleSet
  rw [h1, h2, h3, h4, h6, h5, h7]

/-! ## Fuel irrelevance and block-scan structure -/

theorem fixExcF_nil : ∀ n, fixExcF n [] = [] := by
  intro n; cases n <;> rfl

theorem fixExcF_eq_of_le :
    ∀ (n m : Nat) (ls : List Line), ls.length ≤ n → ls.length ≤ m →
      fixExcF n ls = fixExcF m ls := by
  intro n
  induction n with
  | zero =>
    intro m ls h1 _
    have : ls = [] := List.eq_nil_of_length_eq_zero (Nat.le_zero.mp h1)
    subst this
    rw [fixExcF_nil, fixExcF_nil]
  | succ n ih =>
    intro m ls h1 h2
    cases ls with
    | nil => rw [fixExcF_nil, fixExcF_nil]
    | cons l rest =>
      cases m with
      | zero => simp at h2
      | succ m' =>
        have hr1 : rest.length ≤ n := by
          simp only [List.length_cons] at h1; omega
        have hr2 : rest.length ≤ m' := by
          simp only [List.length_cons] at h2; omega
        simp only [fixExcF]
        cases hp1 : excPat1 l with
        | some v =>
          obtain ⟨i, cd, e, tl⟩ := v
          dsimp only
          rw [ih m' rest hr1 hr2]
        | none =>
          cases hp2 : excPat2 l with
          | some v =>
            obtain ⟨i, cd, e⟩ := v
            dsimp only
            rw [ih m' rest hr1 hr2]
          | none =>
            cases hb : excBlockResult l rest with
            | some v =>
              obtain ⟨emitted, post⟩ := v
              have hple := excBlockResult_post_le l rest emitted post hb
              dsimp only
              rw [ih m' post (le_trans hple hr1) (le_trans hple hr2)]
            | none =>
              cases hp4 : excPat4 l with
              | some v =>
                obtain ⟨i, cd, e⟩ := v
                dsimp only
                rw [ih m' rest hr1 hr2]
              | none =>
                dsimp only
                rw [ih m' rest hr1 hr2]

theorem scanBlock_of_structure (pre : List Line) (closer : Line)
    (post : List Line) (hpre : ∀ l ∈ pre, isCloserLine l = false)
    (hc : isCloserLine closer = true) :
    scanBlock (pre ++ closer :: post) = some (pre, closer, post) := by
  induction pre with
  | nil => simp [scanBlock, hc]
  | cons x xs ih =>
    have hx : isCloserLine x = false := hpre x (by simp)
    simp only [List.cons_append, scanBlock, hx, Bool.false_eq_true, if_false,
      List.append_eq]
    rw [ih (fun l hl => hpre l (by simp [hl]))]

theorem scanBlock_none_of_no_closer (ls : List Line)
    (h : ∀ l ∈ ls, isCloserLine l = false) : scanBlock ls = none := by
  induction ls with
  | nil => rfl
  | cons x xs ih =>
    have hx : isCloserLine x = false := h x (by simp)
    simp only [scanBlock, hx, Bool.false_eq_true, if_false]
    rw [ih (fun l hl => h l (by simp [hl]))]

/-! ## Claims -/

/-- C1 (counterexample): the claim "the temporal family applies iff the
line contains 'Time' or 'Date', otherwise only the numeric family
applies; no line is rewritten by both families" is false.  The line
`x.Should().BeGreaterThan(5)` contains neither keyword, yet the temporal
family rewrites it (to `x.Should().BeAfter(5)`): the method-name rewrites
of `fix_datetime_assertions.py` are unguarded.  Moreover the line
`a.Should().BeAfter(b); c.Should().BeGreaterThan(d);` is modified by both
families. -/
theorem c1_counterexample :
    (occursIn "Time".data "x.Should().BeGreaterThan(5)".data = false
      ∧ occursIn "Date".data "x.Should().BeGreaterThan(5)".data = false
      ∧ fixDatetimeLine "x.Should().BeGreaterThan(5)".data
          ≠ "x.Should().BeGreaterThan(5)".data)
    ∧ (fixDatetimeLine "a.Should().BeAfter(b); c.Should().BeGreaterThan(d);".data
        ≠ "a.Should().BeAfter(b); c.Should().BeGreaterThan(d);".data
      ∧ fixNumericLine "a.Should().BeAfter(b); c.Should().BeGreaterThan(d);".data
        ≠ "a.Should().BeAfter(b); c.Should().BeGreaterThan(d);".data) := by
  refine ⟨⟨by decide, by decide, by decide⟩, by decide, by decide⟩

/-- C1 (amended): the Context Guard governs the numeric family as a whole
and the comparison-operator rewrites of the temporal family: a line
containing 'DateTime', 'Time' or 'Date' is never modified by
`fix_numeric_assertions`, and a line containing neither 'Time' nor 'Date'
is never modified by the temporal comparison-operator rewrites.  (The
temporal method-name substitutions are unguarded — see the
counterexample.) -/
theorem c1_amended_guard (l : Line) :
    (numGuard l = true → fixNumericLine l = l)
    ∧ (dtGuard l = false → dtGtStep l = l ∧ dtLtStep l = l) := by
  constructor
  · intro h
    unfold fixNumericLine
    rw [if_pos h]
  · intro h
    constructor
    · unfold dtGtStep
      cases hm : matchCmpDT '>' l with
      | none => rfl
      | some v =>
        obtain ⟨i, a, b⟩ := v
        rw [h]
        simp
    · unfold dtLtStep
      cases hm : matchCmpDT '<' l with
      | none => rfl
      | some v =>
        obtain ⟨i, a, b⟩ := v
        rw [h]
        simp

/-- Witness for C1 (amended): concrete instances of both guard
directions. -/
theorem c1_amended_guard_witness :
    fixNumericLine "myTime.Should().BeAfter(5)".data
        = "myTime.Should().BeAfter(5)".data
    ∧ dtGtStep "(count > 0).Should().BeTrue()".data
        = "(count > 0).Should().BeTrue()".data :=
  ⟨(c1_amended_guard "myTime.Should().BeAfter(5)".data).1 (by decide),
   ((c1_amended_guard "(count > 0).Should().BeTrue()".data).2 (by decide)).1⟩

/-- C2 (code bug): the full Rule Set is not idempotent, contradicting the
specification's idempotence invariant.  On the document consisting of the
line `a > b.Should().BeTrue() > c.Should().BeTrue()`, one application
yields `a.Should().BeGreaterThan(b) > c.Should().BeTrue()`, and a second
application rewrites that output again to
`a.Should().BeGreaterThan(b).Should().BeGreaterThan(c)`: the
comparison-to-assertion rule of `fix_remaining_assertions.py` fires on the
residue left by its own first application. -/
theorem c2_rule_set_not_idempotent :
    applyRuleSet ["a > b.Should().BeTrue() > c.Should().BeTrue()".data]
      = ["a.Should().BeGreaterThan(b) > c.Should().BeTrue()".data]
    ∧ applyRuleSet (applyRuleSet
        ["a > b.Should().BeTrue() > c.Should().BeTrue()".data])
      = ["a.Should().BeGreaterThan(b).Should().BeGreaterThan(c)".data]
    ∧ applyRuleSet (applyRuleSet
        ["a > b.Should().BeTrue() > c.Should().BeTrue()".data])
      ≠ applyRuleSet ["a > b.Should().BeTrue() > c.Should().BeTrue()".data] := by
  refine ⟨rfl, rfl, by decide⟩

/-- C3: a document none of whose lines contains a recognized malformed
shape (no rule's matcher-plus-guard fires on any line) is transformed to
itself and reported unchanged (`changed = false`). -/
theorem c3_no_shape_no_op (doc : List Line)
    (h : ∀ l ∈ doc, recognizedShape l = false) :
    transform doc = (doc, false) := by
  have hset := applyRuleSet_of_no_shape doc h
  unfold transform
  rw [hset]
  simp

/-- Witness for C3: a concrete two-line already-correct document. -/
theorem c3_no_shape_no_op_witness :
    transform ["public void TestMethod()".data,
               "    entity.Name.Should().Be(\"test\");".data]
      = (["public void TestMethod()".data,
          "    entity.Name.Should().Be(\"test\");".data], false) :=
  c3_no_shape_no_op _ (by decide)

/-- C4 (counterexample): on the input `(count > 0).Should().BeTrue()` the
transformation does not output `count.Should().BeGreaterThan(0)` — the
lazy operand captures of `fix_remaining_assertions.py` keep the
surrounding parentheses. -/
theorem c4_counterexample :
    fixRemainingLine "(count > 0).Should().BeTrue()".data
      ≠ "count.Should().BeGreaterThan(0)".data
    ∧ applyRuleSet ["(count > 0).Should().BeTrue()".data]
      ≠ ["count.Should().BeGreaterThan(0)".data] := by
  refine ⟨by decide, by decide⟩

/-- C4 (amended): on the input `(count > 0).Should().BeTrue()` the
transformation (both `fix_assertion_issues` of
`fix_remaining_assertions.py` and the full Rule Set) outputs
`(count.Should().BeGreaterThan(0))`, the matcher's operand captures
retaining the outer parentheses. -/
theorem c4_amended_output :
    fixRemainingLine "(count > 0).Should().BeTrue()".data
      = "(count.Should().BeGreaterThan(0))".data
    ∧ applyRuleSet ["(count > 0).Should().BeTrue()".data]
      = ["(count.Should().BeGreaterThan(0))".data] :=
  ⟨rfl, rfl⟩

/-- C7 (counterexample): the input
`sql.Contains("SELECT").Should().BeTrue())` (with the trivial-true
assertion outside the `Contains` call) matches no rule: both cited
transformation functions and the full Rule Set leave it unchanged, so the
claimed output `sql.Should().Contain("SELECT")` is not produced. -/
theorem c7_counterexample :
    fixRemainingLine "sql.Contains(\"SELECT\").Should().BeTrue())".data
      = "sql.Contains(\"SELECT\").Should().BeTrue())".data
    ∧ fixAllIssuesLine "sql.Contains(\"SELECT\").Should().BeTrue())".data
      = "sql.Contains(\"SELECT\").Should().BeTrue())".data
    ∧ applyRuleSet ["sql.Contains(\"SELECT\").Should().BeTrue())".data]
      = ["sql.Contains(\"SELECT\").Should().BeTrue())".data]
    ∧ "sql.Contains(\"SELECT\").Should().BeTrue())".data
      ≠ "sql.Should().Contain(\"SELECT\")".data := by
  refine ⟨rfl, rfl, rfl, by decide⟩

/-- C7 (amended): the containment rules repair the shapes in which the
trivial-true assertion sits inside the `Contains` argument:
`sql.Contains("SELECT".Should().BeTrue())` becomes
`sql.Should().Contain("SELECT")` under `fix_remaining_assertions.py`, and
the doubled-wrapping variant `sql.Contains("SELECT".Should().BeTrue()))`
becomes the same after `fix_all_assertion_issues.py` strips the leftover
parenthesis. -/
theorem c7_amended_containment :
    fixRemainingLine "sql.Contains(\"SELECT\".Should().BeTrue())".data
      = "sql.Should().Contain(\"SELECT\")".data
    ∧ fixAllIssuesLine
        (fixRemainingLine "sql.Contains(\"SELECT\".Should().BeTrue()))".data)
      = "sql.Should().Contain(\"SELECT\")".data :=
  ⟨rfl, rfl⟩

/-- C8 (counterexample): the bracket-indexing rule of
`fix_final_issues.py` (one of the claim's cited bracket-repair rules) has
no identifier restriction: it rewrites `foo[0.Value.Should().Be(5);` even
though `foo` is not in the enumerated identifier set, so lines whose
`[digits.` occurrences follow other identifiers are not left unchanged. -/
theorem c8_counterexample :
    fixFinalLine "foo[0.Value.Should().Be(5);".data
      = "foo[0].Value.Should().Be(5);".data
    ∧ fixFinalLine "foo[0.Value.Should().Be(5);".data
      ≠ "foo[0.Value.Should().Be(5);".data := by
  refine ⟨rfl, by decide⟩

/-- C8 (amended): only the bracket rules of `fix_lambda_assertions.py` and
`fix_all_assertion_issues.py` are restricted to the enumerated identifier
set: the bracket rule for an identifier `name` leaves every line in which
the text `name[` does not occur unchanged (`fix_final_issues.py`'s rule —
the empty name — rewrites any `[digits.` occurrence, as the
counterexample shows). -/
theorem c8_amended_named_bracket (name : List Char) (l : Line)
    (h : occursIn (name ++ ['[']) l = false) :
    bracketSub name l = l := by
  apply subScan_of_not_hasMatch
  induction l with
  | nil => rfl
  | cons c t ih =>
    simp only [occursIn, Bool.or_eq_false_iff] at h
    simp only [hasMatch, Bool.or_eq_false_iff]
    refine ⟨?_, ih h.2⟩
    unfold tryBracket
    rw [if_neg (by simp [h.1])]
    simp

/-- Witness for C8 (amended): the `results` bracket rule leaves the
`foo`-indexed line unchanged. -/
theorem c8_amended_named_bracket_witness :
    bracketSub "results".data "foo[0.Value.Should().Be(5);".data
      = "foo[0.Value.Should().Be(5);".data :=
  c8_amended_named_bracket "results".data _ (by decide)

/-- C5 (counterexample): for a document whose deferred-evaluation opening
marker is never closed, the emitted output need not equal the input span:
the opening line is passed through, but the following lines are re-scanned
individually and can be rewritten (here pattern 4 fires on the second
line), changing both the content and the line count. -/
theorem c5_counterexample :
    fix_exception_assertions
        ["(() => \x7b".data, "var y = foo().Should().Throw<E>();".data]
      = ["(() => \x7b".data, "// Act & Assert".data,
         "Action act = () => foo();".data,
         "act.Should().Throw<E>();".data]
    ∧ (fix_exception_assertions
        ["(() => \x7b".data,
         "var y = foo().Should().Throw<E>();".data]).length
      ≠ ([ "(() => \x7b".data,
           "var y = foo().Should().Throw<E>();".data] : List Line).length := by
  refine ⟨rfl, by decide⟩

/-- C5 (amended): when no closing marker follows an opening line, the
scanner never truncates or drops text: the opening line is emitted
unchanged and scanning resumes at the next line, the remaining lines being
processed by the single-line rules; if none of them matches a single-line
rule of the exception script, the whole span is emitted byte-identical
with its line count preserved. -/
theorem c5_amended_unterminated (op : Line) (rest : List Line)
    (h1 : excPat1 op = none) (h2 : excPat2 op = none)
    (h4 : excPat4 op = none)
    (hnc : ∀ l ∈ op :: rest, isCloserLine l = false)
    (hrest : ∀ l ∈ rest, excShape l = false) :
    fix_exception_assertions (op :: rest) = op :: rest := by
  unfold fix_exception_assertions
  simp only [List.length_cons]
  simp only [fixExcF]
  rw [h1]
  dsimp only
  rw [h2]
  dsimp only
  have hb : excBlockResult op rest = none := by
    unfold excBlockResult
    by_cases ht : (occursIn "(() => \x7b".data op
        || occursIn "(() =>".data op : Bool)
    · rw [if_pos ht, scanBlock_none_of_no_closer _ hnc]
    · rw [if_neg ht]
  rw [hb]
  dsimp only
  rw [h4]
  dsimp only
  rw [fixExcF_of_inert rest.length rest hrest]

/-- Witness for C5 (amended): a two-line unterminated span whose second
line matches nothing is emitted byte-identical. -/
theorem c5_amended_unterminated_witness :
    fix_exception_assertions ["(() => \x7b".data, "int x = 5;".data]
      = ["(() => \x7b".data, "int x = 5;".data] :=
  c5_amended_unterminated "(() => \x7b".data ["int x = 5;".data]
    (by decide) (by decide) (by decide) (by decide) (by decide)

/-- C6: a multi-line deferred-evaluation block — an opening line carrying
the `(() => {` marker, body lines free of closing markers, and a closing
line from which `.Should().Throw<TYPE>` extracts a type — is replaced by
the comment marker line, the wrapper assignment over the body lines
reproduced verbatim, and the final assertion line naming the extracted
type; scanning resumes at the line immediately after the closing marker. -/
theorem c6_block_rewrite (op : Line) (body : List Line) (closer : Line)
    (exc : Line) (rest : List Line)
    (h1 : excPat1 op = none) (h2 : excPat2 op = none)
    (htrig : occursIn "(() => \x7b".data op = true)
    (hop : isCloserLine op = false)
    (hbody : ∀ l ∈ body, isCloserLine l = false)
    (hcl : isCloserLine closer = true)
    (hjoin : occursIn ".Should().Throw".data
        (((op :: body) ++ [closer]).flatten) = true)
    (hth : throwSearch closer = some exc) :
    fix_exception_assertions (op :: (body ++ closer :: rest))
      = (op.takeWhile isSpaceC ++ "// Act & Assert".data)
        :: (op.takeWhile isSpaceC ++ "Action act = () =>".data)
        :: (op.takeWhile isSpaceC ++ ['\x7b'])
        :: (body
            ++ (op.takeWhile isSpaceC ++ "\x7d;".data)
            :: (op.takeWhile isSpaceC ++ "act.Should().Throw<".data
                  ++ exc ++ ">();".data)
            :: fix_exception_assertions rest) := by
  have hb : excBlockResult op (body ++ closer :: rest)
      = some ((op.takeWhile isSpaceC ++ "// Act & Assert".data)
          :: (op.takeWhile isSpaceC ++ "Action act = () =>".data)
          :: (op.takeWhile isSpaceC ++ ['\x7b'])
          :: (body ++ [op.takeWhile isSpaceC ++ "\x7d;".data,
                op.takeWhile isSpaceC ++ "act.Should().Throw<".data
                  ++ exc ++ ">();".data]), rest) := by
    unfold excBlockResult
    rw [if_pos (by simp [htrig])]
    have hstruct : op :: (body ++ closer :: rest)
        = (op :: body) ++ closer :: rest := by simp
    rw [hstruct,
      scanBlock_of_structure (op :: body) closer rest
        (by
          intro l hl
          rcases List.mem_cons.mp hl with h | h
          · subst h; exact hop
          · exact hbody l h) hcl]
    dsimp only
    rw [if_pos hjoin, hth]
    dsimp only
    rw [show (op :: body).drop 1 = body from rfl]
  unfold fix_exception_assertions
  simp only [List.length_cons]
  simp only [fixExcF]
  rw [h1]
  dsimp only
  rw [h2]
  dsimp only
  rw [hb]
  dsimp only
  rw [fixExcF_eq_of_le (body ++ closer :: rest).length rest.length rest
      (by simp only [List.length_append, List.length_cons]; omega)
      (le_refl _)]
  simp

/-- Witness for C6: the specification's three-line scenario (body
`mapper.MapEntityToParameters(null)`, closing type
`ArgumentNullException`), followed by one more line. -/
theorem c6_block_rewrite_witness :
    fix_exception_assertions
        ["(() => \x7b".data,
         "    mapper.MapEntityToParameters(null);".data,
         "\x7d).Should().Throw<ArgumentNullException>();".data,
         "next();".data]
      = ["// Act & Assert".data,
         "Action act = () =>".data,
         "\x7b".data,
         "    mapper.MapEntityToParameters(null);".data,
         "\x7d;".data,
         "act.Should().Throw<ArgumentNullException>();".data,
         "next();".data] := by
  have h := c6_block_rewrite "(() => \x7b".data
      ["    mapper.MapEntityToParameters(null);".data]
      "\x7d).Should().Throw<ArgumentNullException>();".data
      "ArgumentNullException".data
      ["next();".data]
      (by decide) (by decide) (by decide) (by decide) (by decide)
      (by decide) (by decide) (by decide)
  simpa using h

/-- C9: when exception pattern 1 matches a single line and the captured
lambda body contains `.Should()`, only the text before the first
occurrence of `.Should()` is emitted as the action body — the rest of the
captured body is dropped from the output. -/
theorem c9_pattern1_truncates (l : Line) (ind cd exc tl : Line)
    (ls : List Line)
    (hm : excPat1 l = some (ind, cd, exc, tl))
    (hs : occursIn ".Should()".data cd = true) :
    fix_exception_assertions (l :: ls)
      = (ind ++ "// Act & Assert".data)
        :: (ind ++ "Action act = () => ".data
             ++ beforeFirst ".Should()".data cd ++ [';'])
        :: (ind ++ "act.Should().Throw<".data ++ exc ++ ">()".data ++ tl)
        :: fix_exception_assertions ls := by
  unfold fix_exception_assertions
  simp only [List.length_cons]
  simp only [fixExcF]
  rw [hm]
  dsimp only
  rw [hs]
  rfl

/-- Witness for C9: the captured body
`mapper.Map(null).Should().Be(5)` is truncated to `mapper.Map(null)`. -/
theorem c9_pattern1_truncates_witness :
    fix_exception_assertions
        ["(() => mapper.Map(null).Should().Be(5)).Should().Throw<ArgumentNullException>();".data]
      = ["// Act & Assert".data,
         "Action act = () => mapper.Map(null);".data,
         "act.Should().Throw<ArgumentNullException>();".data] := by
  have h := c9_pattern1_truncates
      "(() => mapper.Map(null).Should().Be(5)).Should().Throw<ArgumentNullException>();".data
      [] "mapper.Map(null).Should().Be(5)".data
      "ArgumentNullException".data ";".data []
      (by decide) (by decide)
  simpa using h

/-- C10: the temporal comparison rewrites replace the entire line: if
after the (here inert) literal substitutions the `>` matcher fires with
captures (indent, A, B) on a line containing 'Time' or 'Date', the whole
line becomes `{indent}A.Should().BeAfter(B)`, every character after the
matched `.BeTrue()` (such as a trailing semicolon) being deleted; the `<`
matcher likewise produces `{indent}A.Should().BeBefore(B)`. -/
theorem c10_cmp_rewrites_whole_line (l : Line) (i a b : Line) :
    (matchCmpDT '>' (dtSubs l) = some (i, a, b) →
      dtGuard (dtSubs l) = true →
      dtLtStep (i ++ a ++ ".Should().BeAfter(".data ++ b ++ [')'])
        = i ++ a ++ ".Should().BeAfter(".data ++ b ++ [')'] →
      fixDatetimeLine l = i ++ a ++ ".Should().BeAfter(".data ++ b ++ [')'])
    ∧ (dtGtStep (dtSubs l) = dtSubs l →
      matchCmpDT '<' (dtSubs l) = some (i, a, b) →
      dtGuard (dtSubs l) = true →
      fixDatetimeLine l = i ++ a ++ ".Should().BeBefore(".data ++ b ++ [')']) := by
  constructor
  · intro hm hg hlt
    unfold fixDatetimeLine
    have hgt : dtGtStep (dtSubs l)
        = i ++ a ++ ".Should().BeAfter(".data ++ b ++ [')'] := by
      unfold dtGtStep
      rw [hm]
      dsimp only
      rw [hg]
      rfl
    rw [hgt, hlt]
  · intro hgt hm hg
    unfold fixDatetimeLine
    rw [hgt]
    unfold dtLtStep
    rw [hm]
    dsimp only
    rw [hg]
    rfl

/-- Witness for C10: trailing semicolons are deleted by both rewrites. -/
theorem c10_cmp_rewrites_whole_line_witness :
    fixDatetimeLine "(startTime > endTime).Should().BeTrue();".data
      = "startTime.Should().BeAfter(endTime)".data
    ∧ fixDatetimeLine "(openDate < closeDate).Should().BeTrue();".data
      = "openDate.Should().BeBefore(closeDate)".data := by
  constructor
  · have h := (c10_cmp_rewrites_whole_line
        "(startTime > endTime).Should().BeTrue();".data
        [] "startTime".data "endTime".data).1
        (by decide) (by decide) (by decide)
    simpa using h
  · have h := (c10_cmp_rewrites_whole_line
        "(openDate < closeDate).Should().BeTrue();".data
        [] "openDate".data "closeDate".data).2
        (by decide) (by decide) (by decide)
    simpa using h
